import Mathlib

/-!
Shallow embedding of the field-data materialization and memory-mapping
subsystem of `src/internal/core/src/common/Utils.h`:
the functions `GetDataSize`, `FillField`, `WriteFieldData` and `CreateMap`.

Memory and file contents are modelled as `List Nat` with every entry a byte
value below 256.  Machine integers are modelled as `Int` (for signed
`int32_t` / `int64_t` / `ssize_t` values) and `Nat` (for `size_t`), with
two-complement wraparound written explicitly as `% 2 ^ w` where the source
narrows or reinterprets.  A `PanicInfo` / failed `AssertInfo` is modelled as
`none` (for the pure helpers) or an explicit `fatal` outcome (for
`CreateMap`).
-/

namespace Milvus

/-- The milvus `DataType` enum cases relevant to this file.  `NONE` is the
enum value outside the enumerated supported set (its numeric value is 0 in
the C++ enum). -/
inductive DataType where
  | NONE
  | BOOL
  | INT8
  | INT16
  | INT32
  | INT64
  | FLOAT
  | DOUBLE
  | STRING
  | VARCHAR
  | VECTOR_BINARY
  | VECTOR_FLOAT
deriving DecidableEq, Repr

/-- Modelled from the spec: `datatype_is_variable` is declared in a header
that is not under `src/`; per the spec the variable-width logical types are
exactly the string types (`VARCHAR`, `STRING`). -/
def datatype_is_variable (dt : DataType) : Bool :=
  match dt with
  | .STRING => true
  | .VARCHAR => true
  | _ => false

/-- The tagged wire container (`DataArray`, a protobuf message): one payload
per logical type.  Fixed-width payloads are contiguous homogeneous
sequences; `int_data` holds 32-bit signed values (also for INT8/INT16
columns, which are stored widened), `long_data` 64-bit signed values.
Floating payloads are kept as raw 32-bit / 64-bit bit patterns, since the
code only ever copies their bytes.  `string_data` is an ordered sequence of
byte sequences. -/
structure DataArray where
  bool_data : List Bool
  int_data : List Int
  long_data : List Int
  float_data : List Nat
  double_data : List Nat
  string_data : List (List Nat)
  float_vector : List Nat
  binary_vector : List Nat
deriving DecidableEq, Repr

/-- Little-endian byte sequence of a `w`-byte unsigned word `n` (callers
pass `n < 2 ^ (8 * w)`). -/
def wordBytesLE (w : Nat) (n : Nat) : List Nat :=
  (List.range w).map (fun i => n / 2 ^ (8 * i) % 256)

/-- Little-endian two-complement byte sequence of the low `w` bytes of the
integer `v`. -/
def intBytesLE (w : Nat) (v : Int) : List Nat :=
  wordBytesLE w (v % (2 ^ (8 * w) : Nat)).toNat

/-- Bytes of `data->scalars().bool_data().data()`: one byte per element. -/
def boolBytes (d : DataArray) : List Nat :=
  d.bool_data.map (fun b => if b then 1 else 0)

/-- Bytes of the temporary `std::vector<int8_t>` built by narrowing each
32-bit element with `std::copy_n` (two-complement wraparound mod 2^8). -/
def int8Bytes (d : DataArray) : List Nat :=
  d.int_data.map (fun v => (v % ((2 ^ 8 : Nat) : Int)).toNat)

/-- Bytes of the temporary `std::vector<int16_t>` built by narrowing each
32-bit element with `std::copy_n` (two-complement wraparound mod 2^16),
laid out in native little-endian order. -/
def int16Bytes (d : DataArray) : List Nat :=
  (d.int_data.map (intBytesLE 2)).flatten

/-- Bytes of `data->scalars().int_data().data()`: 32-bit little-endian. -/
def int32Bytes (d : DataArray) : List Nat :=
  (d.int_data.map (intBytesLE 4)).flatten

/-- Bytes of `data->scalars().long_data().data()`: 64-bit little-endian. -/
def int64Bytes (d : DataArray) : List Nat :=
  (d.long_data.map (intBytesLE 8)).flatten

/-- Bytes of `data->scalars().float_data().data()`: each element is a raw
32-bit pattern. -/
def floatBytes (d : DataArray) : List Nat :=
  (d.float_data.map (wordBytesLE 4)).flatten

/-- Bytes of `data->scalars().double_data().data()`: each element is a raw
64-bit pattern. -/
def doubleBytes (d : DataArray) : List Nat :=
  (d.double_data.map (wordBytesLE 8)).flatten

/-- Bytes of `data->vectors().float_vector().data()`: raw 32-bit patterns
of the flat float sequence. -/
def floatVecBytes (d : DataArray) : List Nat :=
  (d.float_vector.map (wordBytesLE 4)).flatten

/-- The column descriptor (`FieldMeta`): logical type, vector dimension,
and the fixed per-element width recorded for string fields (the max-length
attribute the implementation stores; the spec calls the string width
implementation-defined). -/
structure FieldMeta where
  data_type : DataType
  dim : Nat
  str_width : Nat
deriving DecidableEq, Repr

/-- Modelled from the spec: `FieldMeta::get_sizeof` is declared in
`common/FieldMeta.h`, which is not under `src/`.  Per the spec the
descriptor carries a per-element byte width for each enumerated logical
type (vector widths derived from the dimension, string width a fixed
descriptor attribute) and signals an unsupported-type error outside the
enumerated set; `none` models that error. -/
def FieldMeta.get_sizeof (f : FieldMeta) : Option Nat :=
  match f.data_type with
  | .BOOL => some 1
  | .INT8 => some 1
  | .INT16 => some 2
  | .INT32 => some 4
  | .INT64 => some 8
  | .FLOAT => some 4
  | .DOUBLE => some 8
  | .STRING => some f.str_width
  | .VARCHAR => some f.str_width
  | .VECTOR_FLOAT => some (4 * f.dim)
  | .VECTOR_BINARY => some (f.dim / 8)
  | .NONE => none

/-- Shallow embedding of `GetDataSize` (Utils.h lines 179-204): the byte
size a column occupies once materialized.  `none` models `PanicInfo` (both
the explicit unsupported-variable-type panic and a panic propagated out of
`field.get_sizeof()`). -/
def GetDataSize (field : FieldMeta) (row_count : Nat) (data : DataArray) :
    Option Nat :=
  let data_type := field.data_type
  if datatype_is_variable data_type then
    match data_type with
    | .VARCHAR => some ((data.string_data.map List.length).sum)
    | .STRING => some ((data.string_data.map List.length).sum)
    | _ => none
  else
    (field.get_sizeof).map (fun w => w * row_count)

/-- Shallow embedding of `FillField` (Utils.h lines 206-265): the byte
contents the call places into the destination region.  `memcpy(dst, src,
size)` is modelled as the first `size` bytes of the source sequence; the
VARCHAR branch copies every element in full, end to end, ignoring `size`.
`none` models the `PanicInfo("unsupported")` default branch (note that
`STRING` has no case here, unlike in `GetDataSize`). -/
def FillField (data_type : DataType) (size : Nat) (data : DataArray) :
    Option (List Nat) :=
  match data_type with
  | .BOOL => some ((boolBytes data).take size)
  | .INT8 => some ((int8Bytes data).take size)
  | .INT16 => some ((int16Bytes data).take size)
  | .INT32 => some ((int32Bytes data).take size)
  | .INT64 => some ((int64Bytes data).take size)
  | .FLOAT => some ((floatBytes data).take size)
  | .DOUBLE => some ((doubleBytes data).take size)
  | .VARCHAR => some data.string_data.flatten
  | .VECTOR_FLOAT => some ((floatVecBytes data).take size)
  | .VECTOR_BINARY => some (data.binary_vector.take size)
  | .NONE => none
  | .STRING => none

/-- State of the open file during `WriteFieldData`: the bytes appended so
far and the index of the next `write` syscall (used to address the kernel
behaviour oracle). -/
structure WriteSt where
  callIdx : Nat
  fileBytes : List Nat
deriving DecidableEq, Repr

/-- A kernel behaviour for the `write` syscall: for call number `i` with
requested byte count `req`, `none` means the call fails (returns -1,
writing nothing) and `some k` means the kernel accepts `min k req` bytes.
This models full writes, short writes and errors. -/
def WriteOracle : Type := Nat → Nat → Option Nat

/-- The always-fully-successful kernel behaviour: every `write` accepts its
whole buffer. -/
def fullWrite : WriteOracle := fun _ req => some req

/-- One `write(fd, buf, req)` syscall under kernel behaviour `o`: returns
the new file state and the ssize_t result (-1 on failure, otherwise the
number of bytes accepted, which are appended to the file). -/
def doWrite (o : WriteOracle) (s : WriteSt) (buf : List Nat) (req : Nat) :
    WriteSt × Int :=
  match o s.callIdx req with
  | none => (⟨s.callIdx + 1, s.fileBytes⟩, -1)
  | some k =>
      let n := min k req
      (⟨s.callIdx + 1, s.fileBytes ++ buf.take n⟩, (n : Int))

/-- The VARCHAR loop of `WriteFieldData` (Utils.h lines 297-311): writes
each element with its own `write` call.  The loop breaks when
`written < begin->size()`; in the source `written` is `ssize_t` and
`begin->size()` is `size_t`, so the comparison converts `written` to the
unsigned 64-bit type (an error return of -1 therefore compares as
2^64 - 1 and does NOT break the loop; it is added to `total_written`).
On a break the partially written element is NOT counted in
`total_written`. -/
def writeStrings (o : WriteOracle) :
    List (List Nat) → WriteSt → Int → WriteSt × Int
  | [], s, total => (s, total)
  | e :: rest, s, total =>
      let r := doWrite o s e e.length
      if ((r.2 % ((2 ^ 64 : Nat) : Int)).toNat) < e.length then (r.1, total)
      else writeStrings o rest r.1 (total + r.2)

/-- Shallow embedding of `WriteFieldData` (Utils.h lines 267-323): writes
the column bytes to an open file under kernel behaviour `o`, returning the
final file state together with the ssize_t return value.  `none` models
`PanicInfo("unsupported")` (again `STRING` has no case). -/
def WriteFieldData (o : WriteOracle) (data_type : DataType)
    (data : DataArray) (size : Nat) : Option (WriteSt × Int) :=
  let s0 : WriteSt := ⟨0, []⟩
  match data_type with
  | .BOOL => some (doWrite o s0 (boolBytes data) size)
  | .INT8 => some (doWrite o s0 (int8Bytes data) size)
  | .INT16 => some (doWrite o s0 (int16Bytes data) size)
  | .INT32 => some (doWrite o s0 (int32Bytes data) size)
  | .INT64 => some (doWrite o s0 (int64Bytes data) size)
  | .FLOAT => some (doWrite o s0 (floatBytes data) size)
  | .DOUBLE => some (doWrite o s0 (doubleBytes data) size)
  | .VARCHAR => some (writeStrings o data.string_data s0 0)
  | .VECTOR_FLOAT => some (doWrite o s0 (floatVecBytes data) size)
  | .VECTOR_BINARY => some (doWrite o s0 data.binary_vector size)
  | .NONE => none
  | .STRING => none

/-- The load request (`LoadFieldDataInfo`): field id, row count, the wire
container, and the optional mmap directory path (absent = anonymous
memory). -/
structure LoadFieldDataInfo where
  field_id : Int
  field_data : DataArray
  row_count : Nat
  mmap_dir_path : Option String
deriving Repr

/-- Filesystem operations `CreateMap` can perform, in order.  Anonymous
mmap is not a filesystem operation and is not recorded. -/
inductive FsOp where
  | createDirs
  | openCreate
  | writeFieldCall (requested : Nat)
  | fsyncCall
  | mmapFileCall (len : Nat)
  | unlinkCall
  | closeCall
deriving DecidableEq, Repr

/-- Outcome of `CreateMap`: a fatal `AssertInfo` / `PanicInfo` (tagged with
which check fired), or a return value — `none` for `nullptr`, `some bytes`
for a mapping whose contents are `bytes`. -/
inductive CMOut where
  | fatal (which : String)
  | ret (mapped : Option (List Nat))
deriving DecidableEq, Repr

/-- Result of a `CreateMap` call: outcome, the filesystem operations
performed, whether the created file still has a directory entry when the
call ends, whether the descriptor is still open, and the `size` argument
passed to `WriteFieldData` on the file-backed path (the expected byte
size). -/
structure CMResult where
  out : CMOut
  ops : List FsOp
  fileRemains : Bool
  fdOpen : Bool
  sizeArg : Option Nat
deriving DecidableEq, Repr

/-- Shallow embedding of `CreateMap` (Utils.h lines 328-420), parameterized
by the kernel `write` behaviour `o`.  The syscalls `open`, `fsync`, `mmap`,
`unlink` and `close` are modelled as succeeding (each failure would raise
its own fatal assertion, which the claims under study do not exercise);
the `write` assertion and the unsupported-type panics are modelled
explicitly.  The anonymous path performs no filesystem operation; the
file-backed path creates `<dir>/<segment_id>/<field_id>`, writes, fsyncs,
and — only when the written count is nonzero — maps, unlinks and closes.
A zero written count returns `nullptr` BEFORE the unlink and close. -/
def CreateMap (o : WriteOracle) (_segment_id : Int) (field_meta : FieldMeta)
    (info : LoadFieldDataInfo) : CMResult :=
  match info.mmap_dir_path with
  | none =>
      let data_type := field_meta.data_type
      match GetDataSize field_meta info.row_count info.field_data with
      | none => ⟨.fatal "unsupported data type", [], false, false, none⟩
      | some data_size =>
          if data_size = 0 then ⟨.ret none, [], false, false, none⟩
          else
            match FillField data_type data_size info.field_data with
            | none => ⟨.fatal "unsupported", [], false, false, none⟩
            | some bytes => ⟨.ret (some bytes), [], false, false, none⟩
  | some _dir =>
      let ops0 : List FsOp := [.createDirs, .openCreate]
      let data_type := field_meta.data_type
      match field_meta.get_sizeof with
      | none => ⟨.fatal "unsupported data type", ops0, true, true, none⟩
      | some w =>
          let size := w * info.row_count
          match WriteFieldData o data_type info.field_data size with
          | none =>
              ⟨.fatal "unsupported", ops0 ++ [.writeFieldCall size],
               true, true, some size⟩
          | some (st, written) =>
              let ops1 := ops0 ++ [.writeFieldCall size]
              if written = (size : Int) ∨
                  (written ≠ -1 ∧ datatype_is_variable data_type = true) then
                let ops2 := ops1 ++ [.fsyncCall]
                if written = 0 then
                  ⟨.ret none, ops2, true, true, some size⟩
                else
                  ⟨.ret (some (st.fileBytes.take written.toNat)),
                   ops2 ++ [.mmapFileCall written.toNat, .unlinkCall,
                            .closeCall],
                   false, false, some size⟩
              else
                ⟨.fatal "write assertion", ops1, true, true, some size⟩

/-- The contiguous source buffer that `WriteFieldData` hands to its single
`write` syscall, for each type whose branch performs exactly one `write`
of `size` bytes (`none` for VARCHAR, which loops, and for the unsupported
types). -/
def srcBytes (dt : DataType) (d : DataArray) : Option (List Nat) :=
  match dt with
  | .BOOL => some (boolBytes d)
  | .INT8 => some (int8Bytes d)
  | .INT16 => some (int16Bytes d)
  | .INT32 => some (int32Bytes d)
  | .INT64 => some (int64Bytes d)
  | .FLOAT => some (floatBytes d)
  | .DOUBLE => some (doubleBytes d)
  | .VECTOR_FLOAT => some (floatVecBytes d)
  | .VECTOR_BINARY => some d.binary_vector
  | _ => none

/-- The empty wire container. -/
def emptyArr : DataArray := ⟨[], [], [], [], [], [], [], []⟩

/-- Container whose string payload is the byte form of the column
["ab", "", "cde"]. -/
def strArr : DataArray :=
  { emptyArr with string_data := [[97, 98], [], [99, 100, 101]] }

/-- Container with the single two-byte string element "ab". -/
def abArr : DataArray := { emptyArr with string_data := [[97, 98]] }

/-- Container with the 32-bit payload [127, -128] (an int8 column as
shipped on the wire, widened). -/
def int8BoundArr : DataArray := { emptyArr with int_data := [127, -128] }

/-- Container with the 32-bit payload [32767, -32768] (an int16 column as
shipped on the wire, widened). -/
def int16BoundArr : DataArray := { emptyArr with int_data := [32767, -32768] }

/-- Container with the single 32-bit payload element 5. -/
def int5Arr : DataArray := { emptyArr with int_data := [5] }

/-- Descriptor of a plain 32-bit integer field. -/
def int32Meta : FieldMeta := ⟨.INT32, 0, 0⟩

/-- Descriptor of a VARCHAR field whose recorded fixed width is 4. -/
def varcharMeta : FieldMeta := ⟨.VARCHAR, 0, 4⟩

/-- Descriptor whose logical type is outside the enumerated set. -/
def noneMeta : FieldMeta := ⟨.NONE, 0, 0⟩

/-- Anonymous-path load request with zero rows. -/
def anonInfo0 : LoadFieldDataInfo := ⟨2, emptyArr, 0, none⟩

/-- Anonymous-path load request over the three-element string column. -/
def anonInfoStr : LoadFieldDataInfo := ⟨2, strArr, 3, none⟩

/-- File-backed load request with zero rows. -/
def fileInfo0 : LoadFieldDataInfo := ⟨2, emptyArr, 0, some "/tmp/mmap"⟩

/-- File-backed load request for one VARCHAR row "ab". -/
def fileInfoVarchar : LoadFieldDataInfo := ⟨2, abArr, 1, some "/tmp/mmap"⟩

/-- File-backed load request for one int32 row. -/
def fileInfoInt5 : LoadFieldDataInfo := ⟨2, int5Arr, 1, some "/tmp/mmap"⟩

/-- Kernel behaviour that accepts at most one byte per `write` call. -/
def cap1 : WriteOracle := fun _ _ => some 1

/-- Kernel behaviour that accepts at most two bytes per `write` call. -/
def cap2 : WriteOracle := fun _ _ => some 2

/-- Under the always-fully-successful kernel behaviour, the VARCHAR write
loop appends exactly the concatenation of the elements and accumulates the
sum of their lengths (element lengths below 2^63, as any real `size_t`
length is). -/
theorem writeStrings_fullWrite (es : List (List Nat)) (s : WriteSt) (t : Int)
    (h : ∀ e ∈ es, e.length < 2 ^ 63) :
    writeStrings fullWrite es s t =
      (⟨s.callIdx + es.length, s.fileBytes ++ es.flatten⟩,
       t + (((es.map List.length).sum : Nat) : Int)) := by
  induction es generalizing s t with
  | nil => simp [writeStrings]
  | cons e rest ih =>
    have he : e.length < 2 ^ 63 := h e (List.mem_cons_self e rest)
    have hmod : ((e.length : Int) % ((2 ^ 64 : Nat) : Int)) = (e.length : Int) := by
      apply Int.emod_eq_of_lt (by positivity)
      have h1 : (e.length : Int) < ((2 ^ 63 : Nat) : Int) := by exact_mod_cast he
      calc (e.length : Int) < ((2 ^ 63 : Nat) : Int) := h1
        _ ≤ ((2 ^ 64 : Nat) : Int) := by norm_num
    have hrest : ∀ x ∈ rest, x.length < 2 ^ 63 :=
      fun x hx => h x (List.mem_cons_of_mem e hx)
    simp only [writeStrings, doWrite, fullWrite, min_self, List.take_length,
      hmod]
    rw [if_neg (by simp)]
    rw [ih _ _ hrest]
    refine Prod.ext ?_ ?_
    · simp only [WriteSt.mk.injEq, List.length_cons, List.flatten_cons,
        List.append_assoc]
      exact ⟨by omega, trivial⟩
    · simp only [List.map_cons, List.sum_cons]
      push_cast
      ring

/-- C1: for every fixed-width column descriptor (per-element width `w`) and
row count `N`, `GetDataSize` returns `N × w`; for every VARCHAR/STRING
column it returns the sum of the byte lengths of the string elements of
the batch, independent of the row count. -/
theorem getDataSize_correct :
    (∀ (fm : FieldMeta) (rc : Nat) (d : DataArray) (w : Nat),
        datatype_is_variable fm.data_type = false →
        fm.get_sizeof = some w →
        GetDataSize fm rc d = some (w * rc)) ∧
    (∀ (fm : FieldMeta) (rc : Nat) (d : DataArray),
        (fm.data_type = .VARCHAR ∨ fm.data_type = .STRING) →
        GetDataSize fm rc d = some ((d.string_data.map List.length).sum)) := by
  constructor
  · intro fm rc d w hvar hw
    simp [GetDataSize, hvar, hw]
  · rintro fm rc d (h | h) <;> simp [GetDataSize, h, datatype_is_variable]

/-- C1 witness: a 32-bit integer column of 3 rows occupies 4 × 3 bytes; the
VARCHAR column ["ab", "", "cde"] occupies 5 bytes whatever the row count. -/
theorem getDataSize_correct_witness :
    GetDataSize int32Meta 3 emptyArr = some (4 * 3) ∧
    GetDataSize varcharMeta 7 strArr =
      some ((strArr.string_data.map List.length).sum) := by
  exact ⟨getDataSize_correct.1 int32Meta 3 emptyArr 4 (by decide) (by decide),
    getDataSize_correct.2 varcharMeta 7 strArr (Or.inl rfl)⟩

/-- C2: for every data type supported by both materializer entry points and
every batch, the byte sequence `WriteFieldData` puts into the file (when
every `write` call writes its buffer fully) equals the byte sequence
`FillField` places in memory for the same input. -/
theorem writeFieldData_refines_fillField (dt : DataType) (d : DataArray)
    (size : Nat) (bs : List Nat) (st : WriteSt) (r : Int)
    (hlen : ∀ e ∈ d.string_data, e.length < 2 ^ 63)
    (hf : FillField dt size d = some bs)
    (hw : WriteFieldData fullWrite dt d size = some (st, r)) :
    st.fileBytes = bs := by
  cases dt <;>
    simp only [FillField, WriteFieldData, Option.some.injEq,
      reduceCtorEq] at hf hw
  case VARCHAR =>
    rw [writeStrings_fullWrite d.string_data ⟨0, []⟩ 0 hlen,
      Prod.mk.injEq] at hw
    rw [← hw.1, ← hf]
    simp
  all_goals
    simp only [doWrite, fullWrite, min_self, Prod.mk.injEq] at hw
    rw [← hw.1, ← hf]
    simp

/-- C2 witness: the VARCHAR column ["ab", "", "cde"] yields the same five
bytes through the file sink (full writes) as through the memory sink. -/
theorem writeFieldData_refines_fillField_witness :
    (⟨3, [97, 98, 99, 100, 101]⟩ : WriteSt).fileBytes =
      [97, 98, 99, 100, 101] :=
  writeFieldData_refines_fillField .VARCHAR strArr 5 [97, 98, 99, 100, 101]
    ⟨3, [97, 98, 99, 100, 101]⟩ 5 (by decide) (by decide) (by decide)

/-- C6: for every logical type outside the enumerated supported set,
`GetDataSize` signals an unsupported-type error (modelled as `none`)
rather than returning a size. -/
theorem getDataSize_unsupported (fm : FieldMeta) (rc : Nat) (d : DataArray)
    (h : fm.data_type ∉ [DataType.BOOL, .INT8, .INT16, .INT32, .INT64,
      .FLOAT, .DOUBLE, .STRING, .VARCHAR, .VECTOR_FLOAT, .VECTOR_BINARY]) :
    GetDataSize fm rc d = none := by
  rcases fm with ⟨dt, dim, sw⟩
  cases dt <;>
    simp_all [GetDataSize, datatype_is_variable, FieldMeta.get_sizeof]

/-- C6 witness: the out-of-set logical type (enum value 0) makes
`GetDataSize` fail. -/
theorem getDataSize_unsupported_witness :
    GetDataSize noneMeta 5 emptyArr = none :=
  getDataSize_unsupported noneMeta 5 emptyArr (by decide)

/-- C8: INT8/INT16 columns arrive widened to 32 bits and are narrowed
element by element before the copy, so the materialized region (memory
sink, and file sink under full writes) holds each element reduced modulo
2^8 / 2^16 in little-endian two-complement bytes; the boundary columns
[127, -128] and [32767, -32768] materialize exactly. -/
theorem int8_int16_narrowing :
    (∀ (d : DataArray) (size : Nat),
        FillField .INT8 size d =
          some ((d.int_data.map
            (fun v => (v % ((2 ^ 8 : Nat) : Int)).toNat)).take size)) ∧
    (∀ (d : DataArray) (size : Nat),
        FillField .INT16 size d =
          some (((d.int_data.map (intBytesLE 2)).flatten).take size)) ∧
    (∀ (d : DataArray) (size : Nat),
        WriteFieldData fullWrite .INT8 d size =
          some (⟨1, (d.int_data.map
            (fun v => (v % ((2 ^ 8 : Nat) : Int)).toNat)).take size⟩,
            (size : Int))) ∧
    (∀ (d : DataArray) (size : Nat),
        WriteFieldData fullWrite .INT16 d size =
          some (⟨1, ((d.int_data.map (intBytesLE 2)).flatten).take size⟩,
            (size : Int))) ∧
    FillField .INT8 2 int8BoundArr = some [127, 128] ∧
    FillField .INT16 4 int16BoundArr = some [255, 127, 0, 128] ∧
    intBytesLE 2 32767 = [255, 127] ∧
    intBytesLE 2 (-32768) = [0, 128] := by
  refine ⟨fun d size => rfl, fun d size => rfl, ?_, ?_, by decide, by decide,
    by decide, by decide⟩ <;>
    intro d size <;>
    simp [WriteFieldData, doWrite, fullWrite, int8Bytes, int16Bytes]

/-- C9: `FillField` materializes a string column as the plain concatenation
of its elements, no separators or length prefixes; in particular
["ab", "", "cde"] becomes exactly the five bytes of "abcde". -/
theorem varchar_concat_layout :
    (∀ (size : Nat) (d : DataArray),
        FillField .VARCHAR size d = some d.string_data.flatten) ∧
    FillField .VARCHAR 5 strArr = some [97, 98, 99, 100, 101] :=
  ⟨fun _ _ => rfl, by decide⟩

/-- A single `write` syscall from a fresh state either fails (-1, nothing
in the file) or returns exactly the number of bytes it appended, provided
the source buffer covers the requested count. -/
theorem doWrite_ret (o : WriteOracle) (buf : List Nat) (size : Nat)
    (hle : size ≤ buf.length) (st : WriteSt) (r : Int)
    (h : doWrite o ⟨0, []⟩ buf size = (st, r)) :
    (r = -1 ∧ st.fileBytes = []) ∨ r = (st.fileBytes.length : Int) := by
  revert h
  simp only [doWrite]
  cases ho : o 0 size with
  | none =>
    intro h
    rw [Prod.mk.injEq] at h
    exact Or.inl ⟨h.2.symm, by rw [← h.1]⟩
  | some k =>
    intro h
    rw [Prod.mk.injEq] at h
    refine Or.inr ?_
    rw [← h.1, ← h.2]
    simp only [List.nil_append, List.length_take]
    have : min k size ≤ buf.length := le_trans (min_le_right k size) hle
    omega

/-- C7 counterexample: the VARCHAR column ["ab"] under a kernel that
accepts one byte per call: one byte actually lands in the file, but
`WriteFieldData` returns 0 (the partially written element is not
counted), so the return is not the number of bytes actually written. -/
theorem writeFieldData_return_counterexample :
    (WriteFieldData cap1 .VARCHAR abArr 2).map
        (fun pr => (pr.1.fileBytes, pr.2)) = some ([97], 0) ∧
    ¬ ((0 : Int) = (([97] : List Nat).length : Int)) := by decide

/-- C7 amended: for every fixed-width type `WriteFieldData` returns the
single write syscall result — the number of bytes actually written, or -1
with nothing written; for VARCHAR, when every element write completes
fully, the return equals the bytes actually written, but a partially
written element is not counted in the return. -/
theorem writeFieldData_return_amended :
    (∀ (o : WriteOracle) (dt : DataType) (d : DataArray) (size : Nat)
        (buf : List Nat) (st : WriteSt) (r : Int),
        srcBytes dt d = some buf → size ≤ buf.length →
        WriteFieldData o dt d size = some (st, r) →
        (r = -1 ∧ st.fileBytes = []) ∨ r = (st.fileBytes.length : Int)) ∧
    (∀ (d : DataArray) (size : Nat) (st : WriteSt) (r : Int),
        (∀ e ∈ d.string_data, e.length < 2 ^ 63) →
        WriteFieldData fullWrite .VARCHAR d size = some (st, r) →
        r = (st.fileBytes.length : Int)) := by
  constructor
  · intro o dt d size buf st r hsrc hle hw
    cases dt <;>
      simp only [srcBytes, Option.some.injEq, reduceCtorEq] at hsrc <;>
      simp only [WriteFieldData, Option.some.injEq] at hw <;>
      subst hsrc <;>
      exact doWrite_ret o _ size hle st r hw
  · intro d size st r hlen hw
    simp only [WriteFieldData, Option.some.injEq] at hw
    rw [writeStrings_fullWrite d.string_data ⟨0, []⟩ 0 hlen,
      Prod.mk.injEq] at hw
    rw [← hw.1, ← hw.2]
    simp [List.length_flatten]

/-- C7 amended witness: a kernel accepting one byte of the requested four
for an int32 column makes the function return 1, the number of bytes in
the file. -/
theorem writeFieldData_return_amended_witness :
    ((1 : Int) = -1 ∧ (⟨1, [5]⟩ : WriteSt).fileBytes = []) ∨
      (1 : Int) = ((⟨1, [5]⟩ : WriteSt).fileBytes.length : Int) :=
  writeFieldData_return_amended.1 cap1 .INT32 int5Arr 4 [5, 0, 0, 0]
    ⟨1, [5]⟩ 1 (by decide) (by decide) (by decide)

/-- C4: on the file-backed path, given the expected size `w × row_count`
and the result of the write, `CreateMap` dies on the post-write assertion
exactly when the written count differs from the expected size and it is
not the case that (written is not the -1 sentinel and the logical type is
variable-width). -/
theorem createMap_write_assert (o : WriteOracle) (seg : Int)
    (fm : FieldMeta) (info : LoadFieldDataInfo) (p : String) (w : Nat)
    (st : WriteSt) (written : Int)
    (hdir : info.mmap_dir_path = some p)
    (hsz : fm.get_sizeof = some w)
    (hwr : WriteFieldData o fm.data_type info.field_data
        (w * info.row_count) = some (st, written)) :
    ((CreateMap o seg fm info).out = .fatal "write assertion") ↔
      ¬ (written = ((w * info.row_count : Nat) : Int) ∨
         (written ≠ -1 ∧ datatype_is_variable fm.data_type = true)) := by
  simp only [CreateMap, hdir, hsz, hwr]
  split_ifs with hc h0 <;> simp_all

/-- C4 witness: an int32 column of one row (expected 4 bytes) with a
kernel that accepts only 2 bytes triggers the post-write assertion, since
2 differs from 4 and int32 is not variable-width. -/
theorem createMap_write_assert_witness :
    ((CreateMap cap2 1 int32Meta fileInfoInt5).out = .fatal "write assertion")
      ↔ ¬ ((2 : Int) = ((4 * fileInfoInt5.row_count : Nat) : Int) ∨
          ((2 : Int) ≠ -1 ∧ datatype_is_variable int32Meta.data_type = true)) :=
  createMap_write_assert cap2 1 int32Meta fileInfoInt5 "/tmp/mmap" 4
    ⟨1, [5, 0]⟩ 2 rfl (by decide) (by decide)

/-- C5: the file-backed path computes its expected byte size as the fixed
per-element width times the row count for every field, including
variable-width ones; this differs from the variable-length-aware
`GetDataSize` used on the anonymous path (concrete VARCHAR disparity:
4 × 1 versus 2). -/
theorem createMap_file_size_from_width :
    (∀ (o : WriteOracle) (seg : Int) (fm : FieldMeta)
        (info : LoadFieldDataInfo) (p : String) (w : Nat),
        info.mmap_dir_path = some p → fm.get_sizeof = some w →
        (CreateMap o seg fm info).sizeArg = some (w * info.row_count)) ∧
    (CreateMap fullWrite 1 varcharMeta fileInfoVarchar).sizeArg =
      some (varcharMeta.str_width * fileInfoVarchar.row_count) ∧
    GetDataSize varcharMeta fileInfoVarchar.row_count
        fileInfoVarchar.field_data = some 2 ∧
    varcharMeta.str_width * fileInfoVarchar.row_count ≠ 2 := by
  refine ⟨?_, by decide, by decide, by decide⟩
  intro o seg fm info p w hdir hsz
  simp only [CreateMap, hdir, hsz]
  rcases hwr : WriteFieldData o fm.data_type info.field_data
      (w * info.row_count) with _ | ⟨st, written⟩
  · simp [hwr]
  · simp only [hwr]
    split_ifs <;> simp

/-- C5 witness: the VARCHAR file-backed request is sized from the fixed
width 4 and row count 1. -/
theorem createMap_file_size_from_width_witness :
    (CreateMap fullWrite 1 varcharMeta fileInfoVarchar).sizeArg =
      some (4 * fileInfoVarchar.row_count) :=
  createMap_file_size_from_width.1 fullWrite 1 varcharMeta fileInfoVarchar
    "/tmp/mmap" 4 rfl (by decide)

/-- C3 counterexample: a zero-row int32 file-backed request returns null
as claimed, but the call has created the file (openCreate is among the
operations) and never unlinks it, so a file IS left behind, and the
descriptor stays open. -/
theorem createMap_empty_counterexample :
    (CreateMap fullWrite 1 int32Meta fileInfo0).out = .ret none ∧
    (CreateMap fullWrite 1 int32Meta fileInfo0).fileRemains = true ∧
    (CreateMap fullWrite 1 int32Meta fileInfo0).fdOpen = true ∧
    FsOp.openCreate ∈ (CreateMap fullWrite 1 int32Meta fileInfo0).ops ∧
    FsOp.unlinkCall ∉ (CreateMap fullWrite 1 int32Meta fileInfo0).ops := by
  decide

/-- C3 amended: a zero-byte column yields a null return on both paths; the
anonymous path touches no filesystem state, but the file-backed path
returns null only after creating, writing and fsyncing the file, and
returns BEFORE the unlink and close, leaving the empty file and the open
descriptor behind. -/
theorem createMap_empty_field :
    (∀ (o : WriteOracle) (seg : Int) (fm : FieldMeta)
        (info : LoadFieldDataInfo),
        info.mmap_dir_path = none →
        GetDataSize fm info.row_count info.field_data = some 0 →
        CreateMap o seg fm info = ⟨.ret none, [], false, false, none⟩) ∧
    (∀ (o : WriteOracle) (seg : Int) (fm : FieldMeta)
        (info : LoadFieldDataInfo) (p : String) (w : Nat) (st : WriteSt),
        info.mmap_dir_path = some p → fm.get_sizeof = some w →
        WriteFieldData o fm.data_type info.field_data
            (w * info.row_count) = some (st, 0) →
        ((0 : Int) = ((w * info.row_count : Nat) : Int) ∨
          ((0 : Int) ≠ -1 ∧ datatype_is_variable fm.data_type = true)) →
        (CreateMap o seg fm info).out = .ret none) ∧
    (∀ (o : WriteOracle) (seg : Int) (fm : FieldMeta)
        (info : LoadFieldDataInfo) (p : String),
        info.mmap_dir_path = some p →
        (CreateMap o seg fm info).out = .ret none →
        (CreateMap o seg fm info).fileRemains = true ∧
        (CreateMap o seg fm info).fdOpen = true ∧
        FsOp.openCreate ∈ (CreateMap o seg fm info).ops ∧
        FsOp.unlinkCall ∉ (CreateMap o seg fm info).ops ∧
        FsOp.closeCall ∉ (CreateMap o seg fm info).ops) := by
  refine ⟨?_, ?_, ?_⟩
  · intro o seg fm info hdir hsize
    simp [CreateMap, hdir, hsize]
  · intro o seg fm info p w st hdir hsz hwr hpass
    simp only [CreateMap, hdir, hsz, hwr]
    rw [if_pos hpass]
    simp
  · intro o seg fm info p hdir
    rcases hsz : fm.get_sizeof with _ | w
    · simp [CreateMap, hdir, hsz]
    · rcases hwr : WriteFieldData o fm.data_type info.field_data
          (w * info.row_count) with _ | ⟨st, written⟩
      · simp [CreateMap, hdir, hsz, hwr]
      · simp only [CreateMap, hdir, hsz, hwr]
        split_ifs with hc h0
        · intro _
          simp
        · simp
        · simp

/-- C3 amended witness: a zero-row int32 request — anonymous: null and no
effects; file-backed: null with the empty file and descriptor left
behind. -/
theorem createMap_empty_field_witness :
    CreateMap fullWrite 1 int32Meta anonInfo0 =
      ⟨.ret none, [], false, false, none⟩ ∧
    (CreateMap fullWrite 1 int32Meta fileInfo0).out = .ret none ∧
    (CreateMap fullWrite 1 int32Meta fileInfo0).fileRemains = true := by
  refine ⟨createMap_empty_field.1 fullWrite 1 int32Meta anonInfo0 rfl
      (by decide),
    createMap_empty_field.2.1 fullWrite 1 int32Meta fileInfo0 "/tmp/mmap" 4
      ⟨1, []⟩ rfl (by decide) (by decide) (by decide),
    (createMap_empty_field.2.2 fullWrite 1 int32Meta fileInfo0 "/tmp/mmap"
      rfl (by decide)).1⟩

/-- C10: with no mapping directory in the request, `CreateMap` performs no
filesystem operation at all and leaves no file or open descriptor
behind — the filesystem state is untouched on the anonymous path. -/
theorem createMap_anon_no_fs (o : WriteOracle) (seg : Int) (fm : FieldMeta)
    (info : LoadFieldDataInfo) (h : info.mmap_dir_path = none) :
    (CreateMap o seg fm info).ops = [] ∧
    (CreateMap o seg fm info).fileRemains = false ∧
    (CreateMap o seg fm info).fdOpen = false := by
  rcases hg : GetDataSize fm info.row_count info.field_data with _ | ds
  · simp [CreateMap, h, hg]
  · by_cases h0 : ds = 0
    · simp [CreateMap, h, hg, h0]
    · rcases hf : FillField fm.data_type ds info.field_data with _ | bytes <;>
        simp [CreateMap, h, hg, h0, hf]

/-- C10 witness: an anonymous-path request over the string column leaves
the filesystem untouched. -/
theorem createMap_anon_no_fs_witness :
    (CreateMap fullWrite 1 varcharMeta anonInfoStr).ops = [] ∧
    (CreateMap fullWrite 1 varcharMeta anonInfoStr).fileRemains = false ∧
    (CreateMap fullWrite 1 varcharMeta anonInfoStr).fdOpen = false :=
  createMap_anon_no_fs fullWrite 1 varcharMeta anonInfoStr rfl

end Milvus
